import Mathlib

/-!
Verification of the batch-weighing HTTP service (Express + SQL Server).

Shallow embedding of the handlers of `src/server.js` (the consolidated
monolith, which is the authoritative variant) and, where a claim cites it,
of the non-transactional variant in `src/unnamed/part_000`.

Modelling conventions:
* JavaScript request-body values are modelled by `JsValue` (undefined, null,
  number, string, boolean); JS numbers are modelled as `Int` (the handlers
  only compare them for equality and pass them to SQL parameters, so float
  behaviour is irrelevant except for NaN, which is modelled by
  `jsToNumber = none`).
* The SQL Server state is modelled by `DB`: the three tables used by the
  weighing workflow (`ProgramacionProduccion`, `ProgramacionProduccion_Control`,
  `ProgramacionProduccion_Detalle`) as lists of typed rows.
* `GETDATE()` is the parameter `now : Nat`; dates (`CAST ... AS DATE`) are
  `Nat` day numbers.
* A SQL transaction is a pure function `DB -> DB × response`; a statement
  failure (driver/connection error) is injected through an oracle
  `f : Nat -> Bool` (`f i = true` means the i-th statement of the handler
  throws), and `ROLLBACK` returns the original `DB`.
-/

/-- A JavaScript value as it appears in a parsed JSON request body. -/
inductive JsValue where
  | undef
  | vnull
  | num (n : Int)
  | str (s : String)
  | jbool (b : Bool)
deriving DecidableEq

/-- JS truthiness: `undefined`, `null`, `0`, the empty string and `false`
are falsy; everything else modelled here is truthy. -/
def truthy : JsValue → Bool
  | .undef => false
  | .vnull => false
  | .num n => n != 0
  | .str s => s != ""
  | .jbool b => b

/-- The JS loose test `v == null`, true exactly for `undefined` and `null`. -/
def isNullish : JsValue → Bool
  | .undef => true
  | .vnull => true
  | _ => false

/-- JS `Number(v)` coercion; `none` stands for NaN. -/
def jsToNumber : JsValue → Option Int
  | .undef => none
  | .vnull => some 0
  | .num n => some n
  | .jbool b => some (if b then 1 else 0)
  | .str s => if s.trim = "" then some 0 else s.trim.toInt?

/-- JS `String(v)` coercion. -/
def jsToString : JsValue → String
  | .undef => "undefined"
  | .vnull => "null"
  | .num n => toString n
  | .str s => s
  | .jbool b => if b then "true" else "false"

/-- The value an mssql `.input(..., sql.NVarChar, v)` parameter takes:
`undefined` and `null` become SQL NULL (`none`). -/
def sqlParamStr : JsValue → Option String
  | .undef => none
  | .vnull => none
  | v => some (jsToString v)

/-- SQL equality of two nullable strings: comparisons with NULL are never
true. -/
def sqlEq (a b : Option String) : Bool :=
  match a, b with
  | some x, some y => x == y
  | _, _ => false

/-- The JS `a ?? b` operator. -/
def jsCoalesce (a b : JsValue) : JsValue :=
  if isNullish a then b else a

/-- `b64.substring(b64.indexOf(',') + 1)` when the string contains a comma:
drop everything up to and including the first comma. -/
def afterComma (s : String) : String :=
  match s.splitOn "," with
  | [] => s
  | [_] => s
  | _ :: rest => String.intercalate "," rest

/-- Value of one base64 alphabet character; `none` for characters outside
the alphabet (Node `Buffer.from(s, 'base64')` skips them). -/
def b64Val (c : Char) : Option Nat :=
  if 'A' ≤ c ∧ c ≤ 'Z' then some (c.toNat - 65)
  else if 'a' ≤ c ∧ c ≤ 'z' then some (c.toNat - 71)
  else if '0' ≤ c ∧ c ≤ '9' then some (c.toNat + 4)
  else if c = '+' then some 62
  else if c = '/' then some 63
  else none

/-- Reassemble bytes from a stream of 6-bit base64 digits. -/
def b64Group : List Nat → List Nat
  | a :: b :: c :: d :: rest =>
      (a * 4 + b / 16) :: ((b % 16) * 16 + c / 4) :: ((c % 4) * 64 + d) :: b64Group rest
  | [a, b, c] => [a * 4 + b / 16, (b % 16) * 16 + c / 4]
  | [a, b] => [a * 4 + b / 16]
  | _ => []

/-- `Buffer.from(s, 'base64')` as a list of byte values. -/
def b64Decode (s : String) : List Nat :=
  b64Group (s.toList.filterMap b64Val)

/-- One `ProgramacionProduccion` row (a ScheduledBatch). -/
structure ScheduledBatch where
  consecutivo : Int
  producto : String
  idLot : String
  pesoLote : Int
  cancelado : Bool
deriving DecidableEq

/-- One `ProgramacionProduccion_Control` row (a BatchControl). -/
structure BatchControl where
  consecutivo : Int
  produccionStart : Option Nat
  produccionFinal : Option Nat
  loteCompletado : Bool
  fechaProgramada : Nat
  lineaDeMezclado : Int
deriving DecidableEq

/-- One `ProgramacionProduccion_Detalle` row (a BatchDetailLine). -/
structure DetailLine where
  consecutivo : Int
  productoTerminado : String
  secuencia : Int
  ingrediente : String
  pesoProgramado : Int
  porcentaje : Int
  taraReal : Option Int
  pesoReal : Option Int
  tiempoDePesado : Option Nat
  etiquetaLeida : String
  fotoEscaneo : Option (List Nat)
deriving DecidableEq

/-- The stored state used by the weighing workflow. -/
structure DB where
  batches : List ScheduledBatch
  controls : List BatchControl
  details : List DetailLine
deriving DecidableEq

/-- The raw body of a `POST /peso` request. -/
structure PesoBody where
  consecutivoF : JsValue
  productoTerminadoF : JsValue
  secuenciaF : JsValue
  ingredienteF : JsValue
  taraF : JsValue
  pesoF : JsValue
  etiquetaF : JsValue
  fotoBase64F : JsValue
deriving DecidableEq

/-- The `POST /peso` field-presence check, mirroring
`Consecutivo == null || !ProductoTerminado || Secuencia == null ||
!Ingrediente || Tara == null || Peso == null`. -/
def pesoValidBody (b : PesoBody) : Bool :=
  !(isNullish b.consecutivoF) && truthy b.productoTerminadoF &&
  !(isNullish b.secuenciaF) && truthy b.ingredienteF &&
  !(isNullish b.taraF) && !(isNullish b.pesoF)

/-- A `POST /peso` request after the handlers coercions
(`Number(...)`, `String(...).trim()`, `Etiqueta ?? ''`, photo decoding). -/
structure PesoReq where
  consecutivo : Int
  productoTerminado : String
  secuencia : Int
  ingrediente : String
  tara : Int
  peso : Int
  etiqueta : String
  foto : Option (List Nat)
deriving DecidableEq

/-- Coerce a validated body into a typed request; `none` when a `Number`
coercion yields NaN (the mssql driver then rejects the parameter and the
handler surfaces a 500). -/
def coerceReq (b : PesoBody) : Option PesoReq :=
  match jsToNumber b.consecutivoF, jsToNumber b.secuenciaF,
        jsToNumber b.taraF, jsToNumber b.pesoF with
  | some cons, some sec, some tara, some peso =>
      some { consecutivo := cons
             productoTerminado := (jsToString b.productoTerminadoF).trim
             secuencia := sec
             ingrediente := (jsToString b.ingredienteF).trim
             tara := tara
             peso := peso
             etiqueta := if isNullish b.etiquetaF then "" else jsToString b.etiquetaF
             foto := if truthy b.fotoBase64F then
                       some (b64Decode (afterComma (jsToString b.fotoBase64F)))
                     else none }
  | _, _, _, _ => none

/-- Response of the `POST /peso` handler. -/
inductive PesoResponse where
  | badRequest
  | notFound
  | serverError
  | ok (remaining : Nat) (completed : Bool) (next : Option DetailLine)
deriving DecidableEq

/-- WHERE clause of the weighing UPDATE: `Consecutivo = @consecutivo AND
ProductoTerminado = @productoTerminado AND Secuencia = @secuencia AND
Ingrediente = @ingrediente`.  Note: it does not test `TiempoDePesado`. -/
def pesoMatch (req : PesoReq) (d : DetailLine) : Bool :=
  d.consecutivo == req.consecutivo &&
  d.productoTerminado == req.productoTerminado &&
  d.secuencia == req.secuencia &&
  d.ingrediente == req.ingrediente

/-- Effect of the weighing UPDATE on one detail row. -/
def updDetail (now : Nat) (req : PesoReq) (d : DetailLine) : DetailLine :=
  if pesoMatch req d then
    { d with taraReal := some req.tara
             pesoReal := some req.peso
             tiempoDePesado := some now
             etiquetaLeida := req.etiqueta
             fotoEscaneo := req.foto }
  else d

/-- `SET ProduccionInicio = COALESCE(ProduccionInicio, GETDATE()) WHERE
Consecutivo = @consecutivo` (server.js step 2). -/
def updStart (now : Nat) (cons : Int) (c : BatchControl) : BatchControl :=
  if c.consecutivo = cons then
    { c with produccionStart := some (c.produccionStart.getD now) }
  else c

/-- `SET ProduccionInicio = GETDATE() WHERE Consecutivo = @consecutivo AND
ProduccionInicio IS NULL` (the part_000 variant of step 2). -/
def updStartVar (now : Nat) (cons : Int) (c : BatchControl) : BatchControl :=
  if c.consecutivo = cons ∧ c.produccionStart = none then
    { c with produccionStart := some now }
  else c

/-- `SET ProduccionFinal = GETDATE(), LoteCompletado = 1 WHERE
Consecutivo = @consecutivo` (step 4). -/
def updFinal (now : Nat) (cons : Int) (c : BatchControl) : BatchControl :=
  if c.consecutivo = cons then
    { c with produccionFinal := some now, loteCompletado := true }
  else c

/-- `Consecutivo = @consecutivo AND TiempoDePesado IS NULL` (step 3 filter). -/
def isPendingOf (cons : Int) (d : DetailLine) : Bool :=
  d.consecutivo == cons && d.tiempoDePesado.isNone

/-- First element with minimal `Secuencia` (SQL `TOP 1 ... ORDER BY Secuencia`). -/
def minBySeq : List DetailLine → Option DetailLine
  | [] => none
  | d :: ds =>
      match minBySeq ds with
      | none => some d
      | some m => if d.secuencia ≤ m.secuencia then some d else some m

/-- Step 5: the next pending line of the batch (the join against
`ProgramacionProduccion` yields no row when the batch row is absent). -/
def nextPending (cons : Int) (db : DB) : Option DetailLine :=
  if db.batches.any (fun a => a.consecutivo == cons) then
    minBySeq (db.details.filter (isPendingOf cons))
  else none

/-- Detail table after step 1 of the weighing transaction. -/
def pesoDetails (now : Nat) (req : PesoReq) (db : DB) : List DetailLine :=
  db.details.map (updDetail now req)

/-- Step 3: `COUNT(*)` of the batch rows still unweighed after step 1. -/
def pesoRemaining (now : Nat) (req : PesoReq) (db : DB) : Nat :=
  (pesoDetails now req db).countP (isPendingOf req.consecutivo)

/-- Control table after step 2 (start stamp, only when `Secuencia = 1`). -/
def pesoControls1 (now : Nat) (req : PesoReq) (db : DB) : List BatchControl :=
  if req.secuencia = 1 then db.controls.map (updStart now req.consecutivo)
  else db.controls

/-- Control table after step 4 (completion stamp when nothing remains). -/
def pesoControls (now : Nat) (req : PesoReq) (db : DB) : List BatchControl :=
  if pesoRemaining now req db = 0 then
    (pesoControls1 now req db).map (updFinal now req.consecutivo)
  else pesoControls1 now req db

/-- Step 5 result as returned in the response. -/
def pesoNext (now : Nat) (req : PesoReq) (db : DB) : Option DetailLine :=
  if pesoRemaining now req db = 0 then none
  else nextPending req.consecutivo { db with details := pesoDetails now req db }

/-- The committed state of a successful weighing transaction. -/
def pesoCommit (now : Nat) (req : PesoReq) (db : DB) : DB :=
  { db with details := pesoDetails now req db, controls := pesoControls now req db }

/-- The `POST /peso` transaction of server.js with a statement-failure
oracle `f` (`f i = true`: the i-th SQL statement throws; the catch block
rolls the transaction back, so the original `db` is returned).
Statements: 1 = weighing UPDATE, 2 = start stamp, 3 = pending count,
4 = completion stamp, 5 = next-pending SELECT, 6 = COMMIT. -/
def pesoTxF (f : Nat → Bool) (now : Nat) (req : PesoReq) (db : DB) :
    DB × PesoResponse :=
  if f 1 then (db, .serverError)
  else if db.details.countP (pesoMatch req) = 0 then (db, .notFound)
  else if (req.secuencia == 1) && f 2 then (db, .serverError)
  else if f 3 then (db, .serverError)
  else if (pesoRemaining now req db == 0) && f 4 then (db, .serverError)
  else if (pesoRemaining now req db != 0) && f 5 then (db, .serverError)
  else if f 6 then (db, .serverError)
  else (pesoCommit now req db,
        .ok (pesoRemaining now req db) (pesoRemaining now req db == 0)
          (pesoNext now req db))

/-- The failure-free oracle. -/
def noFail : Nat → Bool := fun _ => false

/-- The `POST /peso` transaction without injected failures. -/
def pesoTx (now : Nat) (req : PesoReq) (db : DB) : DB × PesoResponse :=
  pesoTxF noFail now req db

/-- The full `POST /peso` handler: validation, coercion, transaction. -/
def pesoEndpoint (now : Nat) (b : PesoBody) (db : DB) : DB × PesoResponse :=
  if !(pesoValidBody b) then (db, .badRequest)
  else
    match coerceReq b with
    | none => (db, .serverError)
    | some req => pesoTx now req db

/-- Row filter of the server.js `GET /lotesprogramados` query:
`CAST(FechaProgramada AS DATE) BETWEEN @inicio AND @fin AND
ISNULL(b.LoteCompletado, 0) = 0 AND ISNULL(a.Cancelado, 0) = 0`. -/
def lotesRowOk (inicio fin : Nat) (a : ScheduledBatch) (b : BatchControl) : Bool :=
  a.consecutivo == b.consecutivo &&
  decide (inicio ≤ b.fechaProgramada) && decide (b.fechaProgramada ≤ fin) &&
  !b.loteCompletado && !a.cancelado

/-- The server.js `GET /lotesprogramados` pending listing (the LEFT JOIN acts
as an inner join because a NULL `FechaProgramada` fails the BETWEEN test). -/
def lotesProgramados (inicio fin : Nat) (db : DB) :
    List (ScheduledBatch × BatchControl) :=
  db.batches.flatMap fun a =>
    (db.controls.filter (fun b => lotesRowOk inicio fin a b)).map fun b => (a, b)

/-- WHERE clause of `POST /lotesprogramados/eliminar-rango`: an existing
control row in the date range, not completed, production not started, and
the batch not yet canceled. -/
def rangoCond (inicio fin : Nat) (db : DB) (a : ScheduledBatch) : Bool :=
  (db.controls.any fun b =>
    a.consecutivo == b.consecutivo &&
    decide (inicio ≤ b.fechaProgramada) && decide (b.fechaProgramada ≤ fin) &&
    !b.loteCompletado && b.produccionStart.isNone) && !a.cancelado

/-- `POST /lotesprogramados/eliminar-rango`: soft-cancel the batches in the
range that satisfy `rangoCond`. -/
def eliminarRango (inicio fin : Nat) (db : DB) : DB :=
  { db with batches := db.batches.map fun a =>
      if rangoCond inicio fin db a then { a with cancelado := true } else a }

/-- The credential part of `sqlConfig` (environment variables, so each is a
string or absent). -/
structure SqlCfg where
  server : Option String
  database : Option String
  user : Option String
  password : Option String
deriving DecidableEq

/-- Falsiness of an environment variable: absent or empty. -/
def envFalsy (o : Option String) : Bool :=
  match o with
  | none => true
  | some s => s == ""

/-- `!sqlConfig.server || !sqlConfig.database || !sqlConfig.user ||
!sqlConfig.password` — the mock-mode test of `getPool`. -/
def credsMissing (c : SqlCfg) : Bool :=
  envFalsy c.server || envFalsy c.database || envFalsy c.user || envFalsy c.password

/-- State of the module-level `poolPromise`: unset, or a cached connect
promise that will resolve (`cached true`) or reject (`cached false`). -/
inductive PoolSt where
  | empty
  | cached (ok : Bool)
deriving DecidableEq

/-- One call to `getPool`: `connectOk` is the outcome `sql.connect` would
have if attempted on this call.  Returns the new cached state and whether a
pool (rather than `null`) is returned. -/
def getPool (cfg : SqlCfg) (st : PoolSt) (connectOk : Bool) : PoolSt × Bool :=
  match st with
  | .empty =>
      if credsMissing cfg then (.empty, false)
      else if connectOk then (.cached true, true) else (.empty, false)
  | .cached ok => if ok then (.cached true, true) else (.empty, false)

/-- One `Ingredientes` row. -/
structure IngRow where
  identificador : Int
  ingrediente : Option String
  activo : Int
  categoriaId : Int
  descripcion : String
deriving DecidableEq

/-- Body of the Ingredientes create/update endpoints. -/
structure IngBody where
  nombreF : JsValue
  descripcionF : JsValue
  categoriaIdF : JsValue
  activoF : JsValue
deriving DecidableEq

/-- HTTP outcome of the Ingredientes endpoints. -/
inductive IngResult where
  | badRequest
  | conflict
  | created (id : Int)
  | updated
  | serverError
deriving DecidableEq

/-- The `@descripcion` parameter: destructuring default `= ''` plus
`Descripcion ?? ''`. -/
def ingDescParam (b : IngBody) : String :=
  match b.descripcionF with
  | .undef => ""
  | .vnull => ""
  | v => jsToString v

/-- `!Nombre || (CategoriaId == null) || (Activo == null)` negated: the
validation of `POST /api/Ingredientes/nuevo`. -/
def ingNuevoValid (b : IngBody) : Bool :=
  truthy b.nombreF && !(isNullish b.categoriaIdF) && !(isNullish b.activoF)

/-- `POST /api/Ingredientes/nuevo` (live path): validation, duplicate-name
check, insert.  `newId` stands for `SCOPE_IDENTITY()`. -/
def ingNuevo (b : IngBody) (newId : Int) (db : List IngRow) :
    IngResult × List IngRow :=
  if !(ingNuevoValid b) then (.badRequest, db)
  else if 0 < db.countP (fun r => sqlEq r.ingrediente (sqlParamStr b.nombreF)) then
    (.conflict, db)
  else
    match jsToNumber b.activoF, jsToNumber b.categoriaIdF with
    | some act, some cat =>
        (.created newId,
         db ++ [{ identificador := newId
                  ingrediente := sqlParamStr b.nombreF
                  activo := act
                  categoriaId := cat
                  descripcion := ingDescParam b }])
    | _, _ => (.serverError, db)

/-- `PUT /api/Ingredientes/actualizar/:id` (live path).  Note: the handler
performs no body validation at all; it goes straight to the duplicate-name
check and the UPDATE. -/
def ingActualizar (b : IngBody) (id : Int) (db : List IngRow) :
    IngResult × List IngRow :=
  if 0 < db.countP (fun r =>
        sqlEq r.ingrediente (sqlParamStr b.nombreF) && r.identificador != id) then
    (.conflict, db)
  else
    match jsToNumber b.activoF, jsToNumber b.categoriaIdF with
    | some act, some cat =>
        (.updated,
         db.map fun r =>
           if r.identificador = id then
             { r with ingrediente := sqlParamStr b.nombreF
                      activo := act
                      categoriaId := cat
                      descripcion := ingDescParam b }
           else r)
    | _, _ => (.serverError, db)

/-- One `UnidadesDeMedida` row. -/
structure UMRow where
  identificador : Int
  activo : Bool
deriving DecidableEq

/-- Body of `POST /lotesprogramados/programar` (server.js version). -/
structure ProgBody where
  codigoProductoF : JsValue
  fechaProgramadaF : JsValue
  usuarioProgramoF : JsValue
  cantidadLotesF : JsValue
  pesoPorLoteF : JsValue
  unidadMedidaIdF : JsValue
  idUnidadMedidaF : JsValue
deriving DecidableEq

/-- HTTP outcome of `POST /lotesprogramados/programar`; `created` means the
stored procedure `SP_ProgramarLotesProduccion` was invoked. -/
inductive ProgResult where
  | invalidParams
  | invalidUnit
  | created
  | serverError
deriving DecidableEq

/-- `Number(UnidadMedidaId ?? IdUnidadMedida)`; `none` is NaN. -/
def progUnidadId (b : ProgBody) : Option Int :=
  jsToNumber (jsCoalesce b.unidadMedidaIdF b.idUnidadMedidaF)

/-- `POST /lotesprogramados/programar` (server.js, live path): field and
unit-id validation, active-unit lookup, then the stored procedure. -/
def lotesProgramar (b : ProgBody) (ums : List UMRow) : ProgResult :=
  if !truthy b.codigoProductoF || !truthy b.fechaProgramadaF ||
     !truthy b.usuarioProgramoF || !truthy b.cantidadLotesF ||
     !truthy b.pesoPorLoteF || (progUnidadId b).isNone ||
     decide ((progUnidadId b).getD 0 ≤ 0) then .invalidParams
  else if ums.countP (fun u =>
        u.activo && u.identificador == (progUnidadId b).getD 0) = 0 then
    .invalidUnit
  else
    match jsToNumber b.cantidadLotesF, jsToNumber b.pesoPorLoteF with
    | some _, some _ => .created
    | _, _ => .serverError

/-- Response of the part_000 non-transactional `POST /peso` handler (its
201 body carries only a message, no remaining/completed/next payload). -/
inductive PesoVarResponse where
  | notFound
  | serverError
  | created
deriving DecidableEq

/-- Failure oracle that makes exactly the k-th SQL statement throw. -/
def failAt (k : Nat) : Nat → Bool := fun i => i == k

/-- The part_000 non-transactional `POST /peso` handler (lines 457-517)
with the statement-failure oracle `f`.  Every statement runs directly on
the pool in auto-commit mode, so a failure at statement i leaves the
effects of the statements before it persisted and surfaces a 500.
Statements: 1 = weighing UPDATE, 2 = start stamp (only when
`Secuencia = 1`, variant form `updStartVar`), 3 = pending count,
4 = completion stamp (only when the count is zero). -/
def pesoVarF (f : Nat → Bool) (now : Nat) (req : PesoReq) (db : DB) :
    DB × PesoVarResponse :=
  if f 1 then (db, .serverError)
  else
    let db1 : DB := { db with details := pesoDetails now req db }
    if db.details.countP (pesoMatch req) = 0 then (db1, .notFound)
    else if (req.secuencia == 1) && f 2 then (db1, .serverError)
    else
      let db2 : DB :=
        if req.secuencia = 1 then
          { db1 with controls := db1.controls.map (updStartVar now req.consecutivo) }
        else db1
      if f 3 then (db2, .serverError)
      else if (pesoRemaining now req db == 0) && f 4 then (db2, .serverError)
      else
        let db3 : DB :=
          if pesoRemaining now req db = 0 then
            { db2 with controls := db2.controls.map (updFinal now req.consecutivo) }
          else db2
        (db3, .created)

/-! ### Helper lemmas about the weighing transaction -/

theorem updStart_consecutivo (now : Nat) (cons : Int) (c : BatchControl) :
    (updStart now cons c).consecutivo = c.consecutivo := by
  unfold updStart; split <;> rfl

theorem updFinal_consecutivo (now : Nat) (cons : Int) (c : BatchControl) :
    (updFinal now cons c).consecutivo = c.consecutivo := by
  unfold updFinal; split <;> rfl

theorem updStart_produccionStart (now : Nat) (cons : Int) (c : BatchControl) :
    (updStart now cons c).produccionStart =
      (if c.consecutivo = cons then some (c.produccionStart.getD now)
       else c.produccionStart) := by
  unfold updStart
  by_cases h : c.consecutivo = cons <;> simp [h]

theorem updFinal_produccionStart (now : Nat) (cons : Int) (c : BatchControl) :
    (updFinal now cons c).produccionStart = c.produccionStart := by
  unfold updFinal; split <;> rfl

theorem updFinal_fields (now : Nat) (cons : Int) (c : BatchControl)
    (h : (updFinal now cons c).consecutivo = cons) :
    (updFinal now cons c).produccionFinal = some now ∧
    (updFinal now cons c).loteCompletado = true := by
  unfold updFinal at h ⊢
  by_cases h0 : c.consecutivo = cons
  · simp [h0]
  · simp [h0] at h

theorem pesoTx_success (now : Nat) (req : PesoReq) (db : DB)
    (h : db.details.countP (pesoMatch req) ≠ 0) :
    pesoTx now req db =
      (pesoCommit now req db,
       .ok (pesoRemaining now req db) (pesoRemaining now req db == 0)
         (pesoNext now req db)) := by
  unfold pesoTx pesoTxF noFail
  simp [h]

/-! ### Claim theorems -/

/-- Claim C1: for every valid weighing request matching an existing detail
line, the response is 201 `ok` with `completed = (remaining == 0)`;
`completed` is false exactly when at least one line of the batch still has a
null weigh-timestamp after the update; and when the remaining count is zero
every control row of the batch gets `ProduccionFinal = now` and
`LoteCompletado = 1`, and `next` is null. -/
theorem peso_completed_iff (now : Nat) (req : PesoReq) (db : DB)
    (h : ∃ d ∈ db.details, pesoMatch req d = true) :
    (pesoTx now req db).2 =
      .ok (pesoRemaining now req db) (pesoRemaining now req db == 0)
        (pesoNext now req db) ∧
    ((pesoRemaining now req db == 0) = false ↔
      ∃ d ∈ (pesoTx now req db).1.details,
        d.consecutivo = req.consecutivo ∧ d.tiempoDePesado = none) ∧
    (pesoRemaining now req db = 0 →
      pesoNext now req db = none ∧
      ∀ c ∈ (pesoTx now req db).1.controls, c.consecutivo = req.consecutivo →
        c.produccionFinal = some now ∧ c.loteCompletado = true) := by
  have hc : db.details.countP (pesoMatch req) ≠ 0 := by
    rcases h with ⟨d, hd, hm⟩
    have hpos : 0 < db.details.countP (pesoMatch req) :=
      List.countP_pos_iff.mpr ⟨d, hd, hm⟩
    omega
  rw [pesoTx_success now req db hc]
  refine ⟨rfl, ?_, ?_⟩
  · constructor
    · intro hne
      have h0 : pesoRemaining now req db ≠ 0 := by simpa using hne
      have hpos : 0 < (pesoDetails now req db).countP (isPendingOf req.consecutivo) := by
        unfold pesoRemaining at h0
        omega
      rcases List.countP_pos_iff.mp hpos with ⟨d, hd, hp⟩
      refine ⟨d, ?_, ?_⟩
      · simpa [pesoCommit] using hd
      · unfold isPendingOf at hp
        simp only [Bool.and_eq_true, beq_iff_eq, Option.isNone_iff_eq_none] at hp
        exact hp
    · rintro ⟨d, hd, hcons, hnone⟩
      have hd2 : d ∈ pesoDetails now req db := by simpa [pesoCommit] using hd
      have hp : isPendingOf req.consecutivo d = true := by
        unfold isPendingOf
        simp [hcons, hnone]
      have hpos : 0 < (pesoDetails now req db).countP (isPendingOf req.consecutivo) :=
        List.countP_pos_iff.mpr ⟨d, hd2, hp⟩
      have hne0 : pesoRemaining now req db ≠ 0 := by
        unfold pesoRemaining
        omega
      simpa using hne0
  · intro h0
    refine ⟨by simp [pesoNext, h0], ?_⟩
    intro c hc2 hcons
    have hmap : (pesoCommit now req db).controls =
        (pesoControls1 now req db).map (updFinal now req.consecutivo) := by
      simp [pesoCommit, pesoControls, h0]
    rw [hmap] at hc2
    rcases List.mem_map.mp hc2 with ⟨c0, _, rfl⟩
    exact updFinal_fields now req.consecutivo c0 hcons

/-- Claim C2 counterexample: in the part_000 non-transactional `/peso`
handler, a failure of the statement right after the detail UPDATE (the
start stamp, statement 2) leaves the weight update persisted — tare,
weight and timestamp committed on the detail line — while the control row
keeps no start stamp and no completion flag: a weight update does persist
without its consequential state transitions. -/
theorem peso_variant_partial_persist :
    pesoVarF (failAt 2) 6 ⟨1, "PT-001", 1, "5", 2, 48, "", none⟩
        ⟨[⟨1, "PT-001", "L1", 25, false⟩], [⟨1, none, none, false, 10, 1⟩],
         [⟨1, "PT-001", 1, "5", 10, 50, none, none, none, "", none⟩]⟩ =
      (⟨[⟨1, "PT-001", "L1", 25, false⟩], [⟨1, none, none, false, 10, 1⟩],
        [⟨1, "PT-001", 1, "5", 10, 50, some 2, some 48, some 6, "", none⟩]⟩,
       PesoVarResponse.serverError) := by
  rfl

/-- Claim C2 (amended): when the weighing UPDATE matches zero rows, both
the server.js transactional handler and the part_000 non-transactional
variant answer 404 with the store unchanged; in the transactional handler
any injected statement failure yields either the untouched store
(rollback) or the fully committed update — no partial state escapes; but
in the non-transactional variant a failure right after a matching detail
UPDATE leaves the updated weights persisted with the control table
untouched. -/
theorem peso_notfound_atomicity (f : Nat → Bool) (now : Nat) (req : PesoReq)
    (db : DB) :
    (f 1 = false → db.details.countP (pesoMatch req) = 0 →
      pesoTxF f now req db = (db, .notFound) ∧
      pesoVarF f now req db = (db, .notFound)) ∧
    ((pesoTxF f now req db).1 = db ∨
      pesoTxF f now req db =
        (pesoCommit now req db,
         .ok (pesoRemaining now req db) (pesoRemaining now req db == 0)
           (pesoNext now req db))) ∧
    (f 1 = false → f 2 = true → req.secuencia = 1 →
      db.details.countP (pesoMatch req) ≠ 0 →
      pesoVarF f now req db =
        ({ db with details := pesoDetails now req db }, .serverError)) := by
  refine ⟨?_, ?_, ?_⟩
  · intro h1 h0
    have hid : db.details.map (updDetail now req) = db.details := by
      have hall : ∀ d ∈ db.details, pesoMatch req d = false := by
        intro d hd
        have hnp := List.countP_eq_zero.mp h0 d hd
        simpa using hnp
      calc db.details.map (updDetail now req)
          = db.details.map id :=
            List.map_congr_left fun d hd => by
              unfold updDetail
              simp [hall d hd]
        _ = db.details := List.map_id db.details
    constructor
    · simp [pesoTxF, h1, h0]
    · simp [pesoVarF, pesoDetails, h1, h0, hid]
  · unfold pesoTxF
    split
    · exact Or.inl rfl
    split
    · exact Or.inl rfl
    split
    · exact Or.inl rfl
    split
    · exact Or.inl rfl
    split
    · exact Or.inl rfl
    split
    · exact Or.inl rfl
    split
    · exact Or.inl rfl
    exact Or.inr rfl
  · intro h1 h2 hseq hc
    unfold pesoVarF
    simp [h1, h2, hseq, hc]

/-- Claim C3: `ProduccionInicio` is first-weigh-wins.  On a successful weigh
of sequence 1, a control row of the batch whose start stamp is unset gets
`some now`, and one whose start stamp is already set keeps its old value
(`Option.getD` folds both cases); rows of other batches are untouched.  The
part_000 variant statement (`SET ProduccionInicio = GETDATE() ... AND
ProduccionInicio IS NULL`) has exactly the same effect as the server.js
`COALESCE` form. -/
theorem produccion_inicio_once (now : Nat) (req : PesoReq) (db : DB)
    (hseq : req.secuencia = 1) (h : ∃ d ∈ db.details, pesoMatch req d = true) :
    (∀ (i : Nat) (c c2 : BatchControl), db.controls[i]? = some c →
       (pesoTx now req db).1.controls[i]? = some c2 →
       c2.consecutivo = c.consecutivo ∧
       c2.produccionStart =
         (if c.consecutivo = req.consecutivo then some (c.produccionStart.getD now)
          else c.produccionStart)) ∧
    (∀ c, updStartVar now req.consecutivo c = updStart now req.consecutivo c) := by
  have hc : db.details.countP (pesoMatch req) ≠ 0 := by
    rcases h with ⟨d, hd, hm⟩
    have hpos : 0 < db.details.countP (pesoMatch req) :=
      List.countP_pos_iff.mpr ⟨d, hd, hm⟩
    omega
  constructor
  · intro i c c2 hci hci2
    rw [pesoTx_success now req db hc] at hci2
    by_cases hrem : pesoRemaining now req db = 0
    · have hform : (pesoCommit now req db).controls =
          (db.controls.map (updStart now req.consecutivo)).map
            (updFinal now req.consecutivo) := by
        simp [pesoCommit, pesoControls, pesoControls1, hrem, hseq]
      rw [hform, List.getElem?_map, List.getElem?_map, hci] at hci2
      simp only [Option.map_some', Option.some.injEq] at hci2
      obtain rfl := hci2.symm
      refine ⟨?_, ?_⟩
      · rw [updFinal_consecutivo, updStart_consecutivo]
      · rw [updFinal_produccionStart, updStart_produccionStart]
    · have hform : (pesoCommit now req db).controls =
          db.controls.map (updStart now req.consecutivo) := by
        simp [pesoCommit, pesoControls, pesoControls1, hrem, hseq]
      rw [hform, List.getElem?_map, hci] at hci2
      simp only [Option.map_some', Option.some.injEq] at hci2
      obtain rfl := hci2.symm
      refine ⟨?_, ?_⟩
      · rw [updStart_consecutivo]
      · rw [updStart_produccionStart]
  · intro c
    rcases c with ⟨cc, ps, pf, lc, fp, lm⟩
    unfold updStartVar updStart
    by_cases h1 : cc = req.consecutivo
    · cases ps with
      | none => simp [h1]
      | some t => simp [h1]
    · simp [h1]

/-- Claim C4: the weighing UPDATE does not exclude rows whose
weigh-timestamp is already set, so a second `/peso` request with the same
key returns 201 and overwrites the stored tare, weight, timestamp, label
and photo of the already-weighed line instead of being rejected or
ignored. -/
theorem reweigh_overwrites (now : Nat) (req : PesoReq) (db : DB) (i : Nat)
    (d : DetailLine) (hd : db.details[i]? = some d)
    (hk : pesoMatch req d = true) (ht : d.tiempoDePesado ≠ none) :
    (pesoTx now req db).2 =
      .ok (pesoRemaining now req db) (pesoRemaining now req db == 0)
        (pesoNext now req db) ∧
    ∀ d2, (pesoTx now req db).1.details[i]? = some d2 →
      d2.consecutivo = d.consecutivo ∧ d2.productoTerminado = d.productoTerminado ∧
      d2.secuencia = d.secuencia ∧ d2.ingrediente = d.ingrediente ∧
      d2.taraReal = some req.tara ∧ d2.pesoReal = some req.peso ∧
      d2.tiempoDePesado = some now ∧ d2.etiquetaLeida = req.etiqueta ∧
      d2.fotoEscaneo = req.foto := by
  have hmem : d ∈ db.details := List.getElem?_mem hd
  have hc : db.details.countP (pesoMatch req) ≠ 0 := by
    have hpos : 0 < db.details.countP (pesoMatch req) :=
      List.countP_pos_iff.mpr ⟨d, hmem, hk⟩
    omega
  constructor
  · rw [pesoTx_success now req db hc]
  · intro d2 hd2
    rw [pesoTx_success now req db hc] at hd2
    have hupd : (pesoCommit now req db).details[i]? =
        some (updDetail now req d) := by
      simp [pesoCommit, pesoDetails, List.getElem?_map, hd]
    rw [hupd] at hd2
    obtain rfl := Option.some.inj hd2
    unfold updDetail
    simp [hk]

/-- Claim C5 counterexample: a batch whose `Cancelado` flag is set
(`cancelado := true` in the input) can still be weighed: the `/peso`
transaction updates its detail line, stamps its control row and answers
201 `ok`, because the weighing UPDATE never consults `Cancelado`. -/
theorem peso_updates_canceled_batch :
    pesoTx 5 ⟨1, "PT-001", 1, "5", 2, 48, "", none⟩
        ⟨[⟨1, "PT-001", "L1", 25, true⟩], [⟨1, none, none, false, 10, 1⟩],
         [⟨1, "PT-001", 1, "5", 10, 50, none, none, none, "", none⟩]⟩ =
      (⟨[⟨1, "PT-001", "L1", 25, true⟩], [⟨1, some 5, some 5, true, 10, 1⟩],
        [⟨1, "PT-001", 1, "5", 10, 50, some 2, some 48, some 5, "", none⟩]⟩,
       PesoResponse.ok 0 true none) := by
  rfl

/-- Claim C5 (amended): a canceled batch is excluded from the server.js
`GET /lotesprogramados` pending listing, but `POST /peso` does not check the
canceled flag: a matching detail line of a canceled batch is still updated
(its weigh-timestamp becomes `now`). -/
theorem canceled_excluded_but_weighable (inicio fin now : Nat) (req : PesoReq)
    (db : DB) :
    (∀ p ∈ lotesProgramados inicio fin db, p.1.cancelado = false) ∧
    ((∃ a ∈ db.batches, a.consecutivo = req.consecutivo ∧ a.cancelado = true) →
      ∀ (i : Nat) (d d2 : DetailLine), db.details[i]? = some d →
        pesoMatch req d = true →
        (pesoTx now req db).1.details[i]? = some d2 →
        d2.tiempoDePesado = some now ∧ d2.consecutivo = d.consecutivo ∧
        d2.secuencia = d.secuencia ∧ d2.ingrediente = d.ingrediente) := by
  constructor
  · intro p hp
    unfold lotesProgramados at hp
    rcases List.mem_flatMap.mp hp with ⟨a, ha, hp2⟩
    rcases List.mem_map.mp hp2 with ⟨b, hb, rfl⟩
    have hok := (List.mem_filter.mp hb).2
    unfold lotesRowOk at hok
    simp only [Bool.and_eq_true, Bool.not_eq_true'] at hok
    exact hok.2
  · rintro ⟨a, ha, hacons, hacanc⟩ i d d2 hd hk hd2
    have hmem : d ∈ db.details := List.getElem?_mem hd
    have hc : db.details.countP (pesoMatch req) ≠ 0 := by
      have hpos : 0 < db.details.countP (pesoMatch req) :=
        List.countP_pos_iff.mpr ⟨d, hmem, hk⟩
      omega
    rw [pesoTx_success now req db hc] at hd2
    have hupd : (pesoCommit now req db).details[i]? =
        some (updDetail now req d) := by
      simp [pesoCommit, pesoDetails, List.getElem?_map, hd]
    rw [hupd] at hd2
    obtain rfl := Option.some.inj hd2
    unfold updDetail
    simp [hk]

/-- Claim C6 counterexample: `PUT /api/Ingredientes/actualizar/:id` performs
no body validation.  A request whose required `Nombre` field is missing is
not answered with 400: the handler reaches its UPDATE, overwrites the row
(setting `Ingrediente` to NULL) and reports success. -/
theorem ing_actualizar_no_validation :
    ingActualizar ⟨JsValue.undef, JsValue.str "x", JsValue.num 2, JsValue.num 1⟩ 1
        [⟨1, some "Sal", 1, 1, ""⟩] =
      (IngResult.updated, [⟨1, none, 1, 2, "x"⟩]) := by
  rfl

/-- Claim C6 (amended): `POST /api/Ingredientes/nuevo` and `POST /peso`
answer a body that fails their field-presence check with 400 and leave the
store untouched, but `PUT /api/Ingredientes/actualizar/:id` has no body
validation and never returns 400. -/
theorem missing_field_validation (b : IngBody) (pb : PesoBody) (now : Nat)
    (newId : Int) (db : List IngRow) (pdb : DB) :
    (ingNuevoValid b = false → ingNuevo b newId db = (.badRequest, db)) ∧
    (pesoValidBody pb = false → pesoEndpoint now pb pdb = (pdb, .badRequest)) ∧
    (∀ id : Int, (ingActualizar b id db).1 ≠ .badRequest) := by
  refine ⟨?_, ?_, ?_⟩
  · intro h
    simp [ingNuevo, h]
  · intro h
    simp [pesoEndpoint, h]
  · intro id
    unfold ingActualizar
    split
    · simp
    · split <;> simp

/-- Claim C7: `getPool` returns null (mock mode) without any connection
attempt when a credential is absent — the outcome is independent of whether
a connection would succeed — and a failed connection is not cached: the
failing call returns null with the cache cleared, so the next call retries
and succeeds when the store is back. -/
theorem getPool_spec (cfg : SqlCfg) :
    (credsMissing cfg = true → ∀ o, getPool cfg .empty o = (.empty, false)) ∧
    (credsMissing cfg = false →
      getPool cfg .empty false = (.empty, false) ∧
      getPool cfg .empty true = (.cached true, true) ∧
      ∀ o, getPool cfg (.cached false) o = (.empty, false)) := by
  constructor
  · intro h o
    simp [getPool, h]
  · intro h
    exact ⟨by simp [getPool, h], by simp [getPool, h], fun o => by simp [getPool]⟩

/-- Claim C8 counterexample: the unit-of-measure id is not optional in the
server.js `POST /lotesprogramados/programar`: a request carrying every other
field but no `UnidadMedidaId`/`IdUnidadMedida` is rejected with 400
(`invalidParams`) before the stored procedure is reached. -/
theorem lotes_programar_unit_required :
    lotesProgramar
        ⟨JsValue.str "PT-001", JsValue.str "2025-01-01", JsValue.str "user",
         JsValue.num 2, JsValue.num 25, JsValue.undef, JsValue.undef⟩
        [⟨1, true⟩] = .invalidParams := by
  rfl

/-- Claim C8 (amended): the unit-of-measure id is required: with all other
fields present, a missing/NaN id or a non-positive id yields 400 before any
lookup; a positive id not found active yields 400 without invoking the
stored procedure; and a positive, active id passes both validations. -/
theorem lotes_programar_unit_validation (b : ProgBody) (ums : List UMRow)
    (h1 : truthy b.codigoProductoF = true) (h2 : truthy b.fechaProgramadaF = true)
    (h3 : truthy b.usuarioProgramoF = true) (h4 : truthy b.cantidadLotesF = true)
    (h5 : truthy b.pesoPorLoteF = true) :
    (progUnidadId b = none → lotesProgramar b ums = .invalidParams) ∧
    (∀ n : Int, progUnidadId b = some n → n ≤ 0 →
      lotesProgramar b ums = .invalidParams) ∧
    (∀ n : Int, progUnidadId b = some n → 0 < n →
      ums.countP (fun u => u.activo && u.identificador == n) = 0 →
      lotesProgramar b ums = .invalidUnit) ∧
    (∀ n : Int, progUnidadId b = some n → 0 < n →
      ums.countP (fun u => u.activo && u.identificador == n) ≠ 0 →
      lotesProgramar b ums ≠ .invalidParams ∧ lotesProgramar b ums ≠ .invalidUnit) := by
  refine ⟨?_, ?_, ?_, ?_⟩
  · intro hn
    simp [lotesProgramar, h1, h2, h3, h4, h5, hn]
  · intro n hn hle
    simp [lotesProgramar, h1, h2, h3, h4, h5, hn, hle]
  · intro n hn hpos hcount
    have hne : ¬(n ≤ 0) := by omega
    simp [lotesProgramar, h1, h2, h3, h4, h5, hn, hne, hcount]
  · intro n hn hpos hcount
    have hne : ¬(n ≤ 0) := by omega
    unfold lotesProgramar
    simp only [h1, h2, h3, h4, h5, hn, Bool.not_true, Bool.false_or,
      Option.isNone_some, Option.getD_some, hne, decide_eq_true_eq,
      if_false, Bool.or_false, decide_False]
    rw [if_neg hcount]
    constructor <;>
    · split
      · simp_all
      · split <;> simp

/-- Claim C9: the `/peso` presence check treats the numeric fields
`Consecutivo`, `Secuencia`, `Tara`, `Peso` with a nullish test (the number 0
passes) but `ProductoTerminado` and `Ingrediente` with a truthiness test:
with all four numerics equal to 0 the request passes validation whenever
the two product fields are truthy, while an empty-string product code, or an
empty-string or 0 ingredient, is answered 400 as if missing. -/
theorem peso_field_presence (now : Nat) (db : DB) (b : PesoBody)
    (hc : b.consecutivoF = JsValue.num 0) (hs : b.secuenciaF = JsValue.num 0)
    (hta : b.taraF = JsValue.num 0) (hp : b.pesoF = JsValue.num 0) :
    (truthy b.productoTerminadoF = true → truthy b.ingredienteF = true →
      (pesoEndpoint now b db).2 ≠ PesoResponse.badRequest) ∧
    (b.productoTerminadoF = JsValue.str "" →
      pesoEndpoint now b db = (db, PesoResponse.badRequest)) ∧
    (b.ingredienteF = JsValue.str "" ∨ b.ingredienteF = JsValue.num 0 →
      pesoEndpoint now b db = (db, PesoResponse.badRequest)) := by
  refine ⟨?_, ?_, ?_⟩
  · intro hpt hing
    have hvalid : pesoValidBody b = true := by
      simp [pesoValidBody, hc, hs, hta, hp, hpt, hing, isNullish]
    obtain ⟨req, hco⟩ : ∃ req, coerceReq b = some req := by
      unfold coerceReq
      rw [hc, hs, hta, hp]
      exact ⟨_, rfl⟩
    unfold pesoEndpoint
    rw [hvalid, hco]
    simp only [Bool.not_true, Bool.false_eq_true, if_false]
    unfold pesoTx pesoTxF noFail
    split
    · simp_all
    · split <;> simp
  · intro hpt
    have hvalid : pesoValidBody b = false := by
      simp [pesoValidBody, hpt, truthy]
    simp [pesoEndpoint, hvalid]
  · intro hing
    have hvalid : pesoValidBody b = false := by
      rcases hing with hing | hing <;> simp [pesoValidBody, hing, truthy]
    simp [pesoEndpoint, hvalid]

/-- Claim C10: `POST /lotesprogramados/eliminar-rango` touches only the
batch table; a batch all of whose control rows have production started or
the lot completed is left unchanged for every date range; and any batch it
does change was uncanceled, is only soft-canceled (`Cancelado := 1`, all
other fields kept), and has a control row inside the range with the lot not
completed and production not started. -/
theorem eliminar_rango_spec (inicio fin : Nat) (db : DB) :
    (eliminarRango inicio fin db).controls = db.controls ∧
    (eliminarRango inicio fin db).details = db.details ∧
    (eliminarRango inicio fin db).batches.length = db.batches.length ∧
    ∀ (i : Nat) (a : ScheduledBatch), db.batches[i]? = some a →
      ((∀ b ∈ db.controls, b.consecutivo = a.consecutivo →
          b.produccionStart ≠ none ∨ b.loteCompletado = true) →
        (eliminarRango inicio fin db).batches[i]? = some a) ∧
      (∀ a2 : ScheduledBatch, (eliminarRango inicio fin db).batches[i]? = some a2 →
        a2 ≠ a →
        a.cancelado = false ∧ a2 = { a with cancelado := true } ∧
        ∃ b ∈ db.controls, b.consecutivo = a.consecutivo ∧
          inicio ≤ b.fechaProgramada ∧ b.fechaProgramada ≤ fin ∧
          b.loteCompletado = false ∧ b.produccionStart = none) := by
  refine ⟨rfl, rfl, by simp [eliminarRango], ?_⟩
  intro i a ha
  have hmap : (eliminarRango inicio fin db).batches[i]? =
      some (if rangoCond inicio fin db a then { a with cancelado := true }
            else a) := by
    simp [eliminarRango, List.getElem?_map, ha]
  constructor
  · intro hall
    rw [hmap]
    have hfalse : rangoCond inicio fin db a = false := by
      by_contra hne
      have hcond : rangoCond inicio fin db a = true := by
        cases hq : rangoCond inicio fin db a
        · exact absurd hq hne
        · rfl
      unfold rangoCond at hcond
      simp only [Bool.and_eq_true, List.any_eq_true] at hcond
      rcases hcond.1 with ⟨b, hb, hbp⟩
      simp only [Bool.and_eq_true, beq_iff_eq, decide_eq_true_eq,
        Bool.not_eq_true', Option.isNone_iff_eq_none] at hbp
      rcases hbp with ⟨⟨⟨⟨hbc, _⟩, _⟩, hcomp⟩, hstart⟩
      rcases hall b hb hbc.symm with hcase | hcase
      · exact hcase hstart
      · rw [hcomp] at hcase
        exact Bool.false_ne_true hcase
    rw [hfalse]
    simp
  · intro a2 ha2 hne
    rw [hmap] at ha2
    obtain rfl := Option.some.inj ha2
    by_cases hcond : rangoCond inicio fin db a = true
    · rw [if_pos hcond] at hne ⊢
      unfold rangoCond at hcond
      simp only [Bool.and_eq_true, List.any_eq_true] at hcond
      rcases hcond with ⟨⟨b, hb, hbp⟩, hcanc⟩
      simp only [Bool.and_eq_true, beq_iff_eq, decide_eq_true_eq,
        Bool.not_eq_true', Option.isNone_iff_eq_none] at hbp
      rcases hbp with ⟨⟨⟨⟨hbc, hge⟩, hle⟩, hcomp⟩, hstart⟩
      have hcancF : a.cancelado = false := by
        simpa using hcanc
      exact ⟨hcancF, rfl, b, hb, hbc.symm, hge, hle, hcomp, hstart⟩
    · rw [if_neg hcond] at hne
      exact absurd rfl hne

/-! ### Witnesses -/

/-- Witness for C1: one batch with two pending lines; weighing the first
yields the 201 response shape established by the claim theorem. -/
theorem peso_completed_iff_witness :
    (pesoTx 7 ⟨1, "PT-001", 1, "5", 2, 48, "", none⟩
        ⟨[⟨1, "PT-001", "L1", 25, false⟩], [⟨1, none, none, false, 10, 1⟩],
         [⟨1, "PT-001", 1, "5", 10, 50, none, none, none, "", none⟩,
          ⟨1, "PT-001", 2, "7", 20, 50, none, none, none, "", none⟩]⟩).2 =
      .ok (pesoRemaining 7 ⟨1, "PT-001", 1, "5", 2, 48, "", none⟩
            ⟨[⟨1, "PT-001", "L1", 25, false⟩], [⟨1, none, none, false, 10, 1⟩],
             [⟨1, "PT-001", 1, "5", 10, 50, none, none, none, "", none⟩,
              ⟨1, "PT-001", 2, "7", 20, 50, none, none, none, "", none⟩]⟩)
        (pesoRemaining 7 ⟨1, "PT-001", 1, "5", 2, 48, "", none⟩
            ⟨[⟨1, "PT-001", "L1", 25, false⟩], [⟨1, none, none, false, 10, 1⟩],
             [⟨1, "PT-001", 1, "5", 10, 50, none, none, none, "", none⟩,
              ⟨1, "PT-001", 2, "7", 20, 50, none, none, none, "", none⟩]⟩ == 0)
        (pesoNext 7 ⟨1, "PT-001", 1, "5", 2, 48, "", none⟩
            ⟨[⟨1, "PT-001", "L1", 25, false⟩], [⟨1, none, none, false, 10, 1⟩],
             [⟨1, "PT-001", 1, "5", 10, 50, none, none, none, "", none⟩,
              ⟨1, "PT-001", 2, "7", 20, 50, none, none, none, "", none⟩]⟩) :=
  (peso_completed_iff 7 ⟨1, "PT-001", 1, "5", 2, 48, "", none⟩
      ⟨[⟨1, "PT-001", "L1", 25, false⟩], [⟨1, none, none, false, 10, 1⟩],
       [⟨1, "PT-001", 1, "5", 10, 50, none, none, none, "", none⟩,
        ⟨1, "PT-001", 2, "7", 20, 50, none, none, none, "", none⟩]⟩
      (by decide)).1

/-- Witness for C2 (amended): with no failures and no matching row, both
handlers answer 404 with the store unchanged. -/
theorem peso_notfound_atomicity_witness :
    pesoTxF noFail 0 ⟨1, "PT", 1, "I", 0, 0, "", none⟩ ⟨[], [], []⟩ =
      (⟨[], [], []⟩, PesoResponse.notFound) ∧
    pesoVarF noFail 0 ⟨1, "PT", 1, "I", 0, 0, "", none⟩ ⟨[], [], []⟩ =
      (⟨[], [], []⟩, PesoVarResponse.notFound) :=
  (peso_notfound_atomicity noFail 0 ⟨1, "PT", 1, "I", 0, 0, "", none⟩
      ⟨[], [], []⟩).1 rfl rfl

/-- Witness for C3: a control row whose start stamp is already `some 3`
keeps it after another successful weigh of sequence 1 at time 7. -/
theorem produccion_inicio_once_witness :
    (1 : Int) = 1 ∧
    (some 3 : Option Nat) =
      (if (1 : Int) = 1 then some ((some 3 : Option Nat).getD 7)
       else (some 3 : Option Nat)) :=
  (produccion_inicio_once 7 ⟨1, "PT-001", 1, "5", 2, 48, "", none⟩
      ⟨[⟨1, "PT-001", "L1", 25, false⟩], [⟨1, some 3, none, false, 10, 1⟩],
       [⟨1, "PT-001", 1, "5", 10, 50, none, none, none, "", none⟩]⟩
      rfl (by decide)).1 0 ⟨1, some 3, none, false, 10, 1⟩
      ⟨1, some 3, some 7, true, 10, 1⟩ rfl rfl

/-- Witness for C4: re-weighing a line already stamped at time 3 overwrites
every weigh field. -/
theorem reweigh_overwrites_witness :
    (1 : Int) = 1 ∧ ("PT-001" : String) = "PT-001" ∧ (1 : Int) = 1 ∧
    ("5" : String) = "5" ∧ (some 2 : Option Int) = some 2 ∧
    (some 48 : Option Int) = some 48 ∧ (some 9 : Option Nat) = some 9 ∧
    ("lbl" : String) = "lbl" ∧ (none : Option (List Nat)) = none :=
  (reweigh_overwrites 9 ⟨1, "PT-001", 1, "5", 2, 48, "lbl", none⟩
      ⟨[⟨1, "PT-001", "L1", 25, false⟩], [⟨1, some 2, none, false, 10, 1⟩],
       [⟨1, "PT-001", 1, "5", 10, 50, some 1, some 47, some 3, "old", none⟩]⟩
      0 ⟨1, "PT-001", 1, "5", 10, 50, some 1, some 47, some 3, "old", none⟩
      rfl rfl (by decide)).2
    ⟨1, "PT-001", 1, "5", 10, 50, some 2, some 48, some 9, "lbl", none⟩ rfl

/-- Witness for C5 (amended): the detail line of a canceled batch is
updated by the weighing transaction. -/
theorem canceled_excluded_but_weighable_witness :
    (some 4 : Option Nat) = some 4 ∧ (2 : Int) = 2 ∧ (1 : Int) = 1 ∧
    ("9" : String) = "9" :=
  (canceled_excluded_but_weighable 0 0 4 ⟨2, "PT-002", 1, "9", 3, 41, "", none⟩
      ⟨[⟨2, "PT-002", "L2", 30, true⟩], [⟨2, none, none, false, 11, 1⟩],
       [⟨2, "PT-002", 1, "9", 12, 40, none, none, none, "", none⟩]⟩).2
    (by decide) 0 ⟨2, "PT-002", 1, "9", 12, 40, none, none, none, "", none⟩
    ⟨2, "PT-002", 1, "9", 12, 40, some 3, some 41, some 4, "", none⟩
    rfl rfl rfl

/-- Witness for C6 (amended): a body with `Nombre` missing is rejected by
the create endpoint and by `/peso` validation, while the update endpoint
never answers 400. -/
theorem missing_field_validation_witness :
    ingNuevo ⟨JsValue.undef, JsValue.undef, JsValue.num 1, JsValue.num 1⟩ 7 [] =
      (IngResult.badRequest, []) ∧
    pesoEndpoint 0
        ⟨JsValue.undef, JsValue.str "PT", JsValue.num 1, JsValue.str "5",
         JsValue.num 1, JsValue.num 1, JsValue.undef, JsValue.undef⟩
        ⟨[], [], []⟩ =
      (⟨[], [], []⟩, PesoResponse.badRequest) ∧
    (ingActualizar ⟨JsValue.undef, JsValue.undef, JsValue.num 1, JsValue.num 1⟩
        3 []).1 ≠ IngResult.badRequest :=
  ⟨(missing_field_validation
      ⟨JsValue.undef, JsValue.undef, JsValue.num 1, JsValue.num 1⟩
      ⟨JsValue.undef, JsValue.str "PT", JsValue.num 1, JsValue.str "5",
       JsValue.num 1, JsValue.num 1, JsValue.undef, JsValue.undef⟩
      0 7 [] ⟨[], [], []⟩).1 rfl,
   (missing_field_validation
      ⟨JsValue.undef, JsValue.undef, JsValue.num 1, JsValue.num 1⟩
      ⟨JsValue.undef, JsValue.str "PT", JsValue.num 1, JsValue.str "5",
       JsValue.num 1, JsValue.num 1, JsValue.undef, JsValue.undef⟩
      0 7 [] ⟨[], [], []⟩).2.1 rfl,
   (missing_field_validation
      ⟨JsValue.undef, JsValue.undef, JsValue.num 1, JsValue.num 1⟩
      ⟨JsValue.undef, JsValue.str "PT", JsValue.num 1, JsValue.str "5",
       JsValue.num 1, JsValue.num 1, JsValue.undef, JsValue.undef⟩
      0 7 [] ⟨[], [], []⟩).2.2 3⟩

/-- Witness for C7: missing server credential gives mock mode even when a
connection would succeed; with full credentials the first successful call
caches the pool. -/
theorem getPool_spec_witness :
    getPool ⟨none, some "d", some "u", some "p"⟩ .empty true = (.empty, false) ∧
    getPool ⟨some "s", some "d", some "u", some "p"⟩ .empty true =
      (.cached true, true) :=
  ⟨(getPool_spec ⟨none, some "d", some "u", some "p"⟩).1 rfl true,
   ((getPool_spec ⟨some "s", some "d", some "u", some "p"⟩).2 rfl).2.1⟩

/-- Witness for C8 (amended): a positive unit id absent from the active
units table is rejected with the unit validation error; the same id present
and active is not rejected by either validation. -/
theorem lotes_programar_unit_validation_witness :
    lotesProgramar
        ⟨JsValue.str "PT-001", JsValue.str "2025-01-01", JsValue.str "u",
         JsValue.num 2, JsValue.num 25, JsValue.num 4, JsValue.undef⟩ [] =
      ProgResult.invalidUnit ∧
    lotesProgramar
        ⟨JsValue.str "PT-001", JsValue.str "2025-01-01", JsValue.str "u",
         JsValue.num 2, JsValue.num 25, JsValue.num 4, JsValue.undef⟩
        [⟨4, true⟩] ≠ ProgResult.invalidParams :=
  ⟨(lotes_programar_unit_validation
      ⟨JsValue.str "PT-001", JsValue.str "2025-01-01", JsValue.str "u",
       JsValue.num 2, JsValue.num 25, JsValue.num 4, JsValue.undef⟩ []
      rfl rfl rfl rfl rfl).2.2.1 4 rfl (by decide) rfl,
   ((lotes_programar_unit_validation
      ⟨JsValue.str "PT-001", JsValue.str "2025-01-01", JsValue.str "u",
       JsValue.num 2, JsValue.num 25, JsValue.num 4, JsValue.undef⟩
      [⟨4, true⟩] rfl rfl rfl rfl rfl).2.2.2 4 rfl (by decide) (by decide)).1⟩

/-- Witness for C9: all-zero numeric fields pass validation; a zero
ingredient is rejected with 400. -/
theorem peso_field_presence_witness :
    (pesoEndpoint 0
        ⟨JsValue.num 0, JsValue.str "PT-001", JsValue.num 0, JsValue.str "5",
         JsValue.num 0, JsValue.num 0, JsValue.undef, JsValue.undef⟩
        ⟨[], [], []⟩).2 ≠ PesoResponse.badRequest ∧
    pesoEndpoint 0
        ⟨JsValue.num 0, JsValue.str "PT-001", JsValue.num 0, JsValue.num 0,
         JsValue.num 0, JsValue.num 0, JsValue.undef, JsValue.undef⟩
        ⟨[], [], []⟩ = (⟨[], [], []⟩, PesoResponse.badRequest) :=
  ⟨(peso_field_presence 0 ⟨[], [], []⟩
      ⟨JsValue.num 0, JsValue.str "PT-001", JsValue.num 0, JsValue.str "5",
       JsValue.num 0, JsValue.num 0, JsValue.undef, JsValue.undef⟩
      rfl rfl rfl rfl).1 rfl rfl,
   (peso_field_presence 0 ⟨[], [], []⟩
      ⟨JsValue.num 0, JsValue.str "PT-001", JsValue.num 0, JsValue.num 0,
       JsValue.num 0, JsValue.num 0, JsValue.undef, JsValue.undef⟩
      rfl rfl rfl rfl).2.2 (Or.inr rfl)⟩

/-- Witness for C10: a batch whose production already started (start stamp
`some 3`) is untouched by a range cancellation covering its date. -/
theorem eliminar_rango_spec_witness :
    (eliminarRango 0 20
        ⟨[⟨1, "P", "L", 25, false⟩], [⟨1, some 3, none, false, 10, 1⟩],
         []⟩).batches[0]? = some ⟨1, "P", "L", 25, false⟩ :=
  ((eliminar_rango_spec 0 20
      ⟨[⟨1, "P", "L", 25, false⟩], [⟨1, some 3, none, false, 10, 1⟩], []⟩).2.2.2
    0 ⟨1, "P", "L", 25, false⟩ rfl).1 (by decide)
